import Mathlib

/-!
Verification development for the Strategy Execution Engine of the trading
repository: the snapshot state machine, order reconciliation, and the two
order-generation / cycle-state algorithms ("Averaging" = `InfBuyStrategy`,
"Value-Rebalancing" = `VRStrategy`).

Modelling conventions:
* Python floats are modelled as exact rationals (`ℚ`); `round(x, 2)` is
  modelled as round-half-to-even on `x * 100` (Python's rounding mode),
  and `int(x)` as truncation toward zero.
* Python dictionaries holding the snapshot "progress" state are modelled
  as structures whose fields are the keys the code reads and writes
  (every reachable progress dict carries all of them).
* In-place mutation is modelled by explicit state passing: functions
  return the updated value.
* Unbounded `while` loops are modelled with an explicit fuel parameter;
  the fueled function returns `none` exactly when the loop has not exited
  after `fuel` iterations, so `∀ fuel, f fuel = none` states that the
  source loop diverges.
* External collaborators (broker, database commits, wall clock) are
  modelled as explicit inputs: each daily-routine tick takes an
  environment record enumerating the broker/clock data the tick consumes.
-/

namespace Trading

/-- Snapshot lifecycle status, from `app/models/enums.py` (`SnapshotStatus`). -/
inductive SnapshotStatus where
  | INIT
  | PENDING
  | IN_PROGRESS
  | COMPLETED
  | FAILED
deriving DecidableEq, Repr

/-- Order lifecycle status, from `app/models/enums.py` (`OrderStatus`). -/
inductive OrderStatus where
  | SUBMITTED
  | FILLED
  | PARTIALLY_FILLED
  | UNFILLED
  | CANCELLED
  | REJECTED
deriving DecidableEq, Repr

/-- Order side, from `app/models/enums.py` (`OrderType`). -/
inductive OrderType where
  | BUY
  | SELL
deriving DecidableEq, Repr, Inhabited

/-- Broker request outcome, from `app/models/enums.py` (`RequestOutcome`). -/
inductive RequestOutcome where
  | ACCEPTED
  | REJECTED
deriving DecidableEq, Repr

/-- Round a rational to the nearest integer, ties to even: the rounding mode
of Python's builtin `round`. -/
def roundHalfEven (x : ℚ) : ℤ :=
  let n := ⌊x⌋
  if x - n < 1/2 then n
  else if 1/2 < x - n then n + 1
  else if n % 2 = 0 then n else n + 1

/-- Python `round(x, 2)` on an exact rational. -/
def pyRound2 (x : ℚ) : ℚ := (roundHalfEven (x * 100) : ℚ) / 100

/-- Python `round(x, 0)` on an exact rational (still a whole number). -/
def pyRound0 (x : ℚ) : ℚ := (roundHalfEven x : ℚ)

/-- Python `int(x)`: truncation toward zero. -/
def pyInt (x : ℚ) : ℤ := if 0 ≤ x then ⌊x⌋ else ⌈x⌉

/-- A child `Order` row as the engine reads it back after reconciliation:
only the fields `_calculate_next_state` consumes (`app/models/schema.py`). -/
structure FilledOrder where
  order_type : OrderType
  order_status : OrderStatus
  filled_qty : ℚ
  filled_price : ℚ
deriving DecidableEq, Repr

namespace InfBuyStrategy

/-- Order generation sub-type, from `inf_buy_strategy.py` (`OrderSubType`). -/
inductive OrderSubType where
  | INIT
  | INIT_DROP
  | AVG_BUY
  | STAR_BUY
  | STAR_SELL
  | ALL_SELL
  | QTR_SELL
deriving DecidableEq, Repr

/-- Configuration read in `InfBuyStrategy.__init__` from the strategy params
(`division`, `sell_gain`, `initial_investment`, `reinvestment_rate`; the two
rates are already divided by 100 there). -/
structure InfConfig where
  division : ℚ
  sell_gain : ℚ
  initial_investment : ℚ
  reinvestment_rate : ℚ
deriving DecidableEq, Repr

/-- The Averaging snapshot `progress` dict: the keys written by
`_create_initial_snapshot` and `_calculate_next_state`. -/
structure InfProgress where
  current_t : ℚ
  star : ℚ
  investment : ℚ
  unit_investment : ℚ
  avg_price : ℚ
  quantity : ℚ
  balance : ℚ
  equity : ℚ
  daily_profit : ℚ
  cycle : ℕ
  error_msg : Option (List String) := none
deriving DecidableEq, Repr

/-- Initial progress state built by `_create_initial_snapshot`
(`inf_buy_strategy.py` lines 180-191). -/
def initialProgress (cfg : InfConfig) : InfProgress :=
  { current_t := 0
    star := cfg.sell_gain
    investment := cfg.initial_investment
    unit_investment := if cfg.initial_investment ≠ 0 then cfg.initial_investment / cfg.division else 0
    avg_price := 0
    quantity := 0
    balance := cfg.initial_investment
    equity := cfg.initial_investment
    daily_profit := 0
    cycle := 0 }

/-- Per-side aggregation accumulator used by `_calculate_next_state`
(`buy_sum` / `sell_sum` dicts, lines 211-212). -/
structure TradeAgg where
  qty : ℚ
  value : ℚ
  daily_profit : ℚ
deriving DecidableEq, Repr

/-- Aggregation loop over the snapshot's child orders
(`inf_buy_strategy.py` lines 218-229): FILLED and PARTIALLY_FILLED orders
contribute quantity, value, and (for sells) profit against the old average. -/
def orderSums (old_avg : ℚ) (orders : List FilledOrder) : TradeAgg × TradeAgg :=
  orders.foldl
    (fun acc o =>
      if o.order_status = OrderStatus.FILLED ∨ o.order_status = OrderStatus.PARTIALLY_FILLED then
        if o.order_type = OrderType.BUY then
          ({ acc.1 with
              qty := acc.1.qty + o.filled_qty
              value := acc.1.value + o.filled_price * o.filled_qty }, acc.2)
        else
          (acc.1,
           { acc.2 with
              qty := acc.2.qty + o.filled_qty
              value := acc.2.value + o.filled_price * o.filled_qty
              daily_profit := acc.2.daily_profit + (o.filled_price - old_avg) * o.filled_qty })
      else acc)
    (⟨0, 0, 0⟩, ⟨0, 0, 0⟩)

/-- The reconciled post-trade quantity computed inside `_calculate_next_state`
(lines 232-234): `new_qty = (old_qty - sell_sum.qty) + buy_sum.qty`. -/
def newQty (p : InfProgress) (orders : List FilledOrder) : ℚ :=
  p.quantity - (orderSums p.avg_price orders).2.qty + (orderSums p.avg_price orders).1.qty

/-- `InfBuyStrategy._calculate_next_state` (`inf_buy_strategy.py` lines
205-298), as a pure function of the previous snapshot's cycle number and
progress, its reconciled child orders, and the current price. The source
works on `progress.copy()` and never writes the previous snapshot back.
When `division = 0` the source would raise `ZeroDivisionError` in the reset
branch; rational division by zero yields 0 here (every configured strategy
has a positive division count). -/
def calculateNextState (cfg : InfConfig) (snapCycle : ℕ) (p : InfProgress)
    (orders : List FilledOrder) (current_price : ℚ) : InfProgress :=
  let sums := orderSums p.avg_price orders
  let buy_sum := sums.1
  let sell_sum := sums.2
  let temp_qty := p.quantity - sell_sum.qty
  let temp_amount := temp_qty * p.avg_price
  let new_qty := temp_qty + buy_sum.qty
  let new_amount := temp_amount + buy_sum.value
  let new_avg := if new_qty ≤ 1/10000 then 0 else pyRound2 (new_amount / new_qty)
  let new_investment := pyRound2 (p.investment + cfg.reinvestment_rate * sell_sum.daily_profit)
  let unit_investment := if cfg.division > 0 then pyRound2 (new_investment / cfg.division) else 0
  let new_balance := pyRound2 (p.balance + sell_sum.value - buy_sum.value)
  let new_t := if unit_investment > 0 ∧ new_qty > 0 then pyRound2 (new_avg * new_qty / unit_investment) else 0
  let new_star := pyRound2 (cfg.sell_gain - new_t * cfg.sell_gain / cfg.division * 2)
  if new_qty ≤ 1/10000 then
    { p with
        current_t := 0
        star := cfg.sell_gain
        investment := new_investment
        unit_investment := if new_investment ≠ 0 then new_investment / cfg.division else 0
        daily_profit := 0
        quantity := 0
        avg_price := 0
        balance := new_balance
        equity := new_balance
        cycle := snapCycle + 1 }
  else
    { p with
        current_t := new_t
        star := new_star
        investment := new_investment
        unit_investment := unit_investment
        daily_profit := sell_sum.daily_profit
        quantity := new_qty
        avg_price := new_avg
        balance := new_balance
        equity := new_balance + new_qty * current_price
        cycle := snapCycle }

/-- The Averaging calculator does not mutate the previous snapshot's
progress (the source copies the dict with `.copy()` and only returns the
new state): the previous progress after a computation is the input itself. -/
def progressAfterCalc (p : InfProgress) : InfProgress := p

/-- A generated (not yet submitted) Averaging order: the dict appended by
`_generate_orders` (`side`, `type`, `price`, `qty`). Quantities are rationals
because the source mixes Python ints and floats in the `qty` slot. -/
structure InfOrder where
  side : OrderType
  sub : OrderSubType
  price : ℚ
  qty : ℚ
deriving DecidableEq, Repr

/-- The T = 0 drop-buy `while` loop of `_generate_orders`
(`inf_buy_strategy.py` lines 367-371): while `target_price > current_price * 0.8`,
increment `qty`, recompute `target_price = round(unit_investment / qty, 2)`,
and emit one 1-unit `INIT_DROP` buy at the recomputed price. Fueled; `none`
means the loop has not exited within `fuel` iterations. -/
def dropLoop (unit_investment current_price : ℚ) :
    ℕ → ℤ → ℚ → Option (List InfOrder)
  | 0, _, _ => none
  | fuel + 1, qty, target_price =>
    if target_price > current_price * (8/10) then
      let qty' := qty + 1
      let tp' := pyRound2 (unit_investment / (qty' : ℚ))
      match dropLoop unit_investment current_price fuel qty' tp' with
      | none => none
      | some rest => some (⟨OrderType.BUY, OrderSubType.INIT_DROP, tp', 1⟩ :: rest)
    else some []

/-- `InfBuyStrategy._generate_orders` (`inf_buy_strategy.py` lines 300-429):
branch on the progress ratio `T`. Errors model the `raise` statements; the
drop loop of the T = 0 branch carries the fuel. In this embedding the
progress record always carries an `avg_price`, so the source's
`avg_price is None` guard cannot fire. -/
def generateOrders (cfg : InfConfig) (state : InfProgress) (current_price : ℚ)
    (fuel : ℕ) : Except String (List InfOrder) :=
  let avg_price := state.avg_price
  let current_t := state.current_t
  let star := state.star
  let investment := state.investment
  let quantity := state.quantity
  let star_price :=
    if avg_price > 1/1000 then pyRound2 (avg_price * (1 + star))
    else pyRound2 (current_price * (1 + star))
  let star_buy_price := min star_price (pyRound2 (current_price * (119/100)))
  let avg_buy_price := min avg_price (pyRound2 (current_price * (119/100)))
  let unit_investment :=
    if investment > 0 then investment / cfg.division else cfg.initial_investment / cfg.division
  let unit_investment :=
    if unit_investment ≤ 0 then cfg.initial_investment / cfg.division else unit_investment
  if unit_investment ≤ 0 then Except.error "Invalid unit investment amount: must be > 0"
  else if current_t = 0 then
    let target_price := pyRound2 (current_price * (12/10))
    let qty : ℤ := if target_price > 0 then pyInt (unit_investment / target_price) else 0
    let init_orders : List InfOrder :=
      if qty > 0 then [⟨OrderType.BUY, OrderSubType.INIT, target_price, (qty : ℚ)⟩] else []
    match dropLoop unit_investment current_price fuel qty target_price with
    | none => Except.error "drop loop did not terminate within fuel"
    | some drops => Except.ok (init_orders ++ drops)
  else if current_t ≤ cfg.division / 2 then
    let qty_buy_avg := if avg_buy_price > 0 then pyRound0 (unit_investment / 2 / avg_buy_price) else 0
    let remaining := unit_investment - avg_buy_price * qty_buy_avg
    let qty_buy_star := if star_buy_price > 0 then pyRound0 (remaining / star_buy_price) else 0
    let qty_sell_star := if quantity > 0 then pyRound0 (quantity / 4) else 0
    let sell_price := if avg_price > 0 then pyRound2 (avg_price * (1 + cfg.sell_gain)) else 0
    let sell_qty := max 0 (quantity - qty_sell_star)
    Except.ok
      [⟨OrderType.BUY, OrderSubType.AVG_BUY, avg_buy_price, qty_buy_avg⟩,
       ⟨OrderType.BUY, OrderSubType.STAR_BUY, star_buy_price, qty_buy_star⟩,
       ⟨OrderType.SELL, OrderSubType.STAR_SELL, star_buy_price + 1/100, qty_sell_star⟩,
       ⟨OrderType.SELL, OrderSubType.ALL_SELL, sell_price, sell_qty⟩]
  else if cfg.division / 2 < current_t ∧ current_t ≤ cfg.division - 1 then
    let qty_buy_star := if star_buy_price > 0 then pyRound0 (unit_investment / star_buy_price) else 0
    let qty_sell_star := if quantity > 0 then pyRound0 (quantity / 4) else 0
    let sell_price := if avg_price > 0 then pyRound2 (avg_price * (1 + cfg.sell_gain)) else 0
    let sell_qty := max 0 (quantity - qty_sell_star)
    Except.ok
      [⟨OrderType.BUY, OrderSubType.STAR_BUY, star_buy_price, qty_buy_star⟩,
       ⟨OrderType.SELL, OrderSubType.STAR_SELL, star_buy_price + 1/100, qty_sell_star⟩,
       ⟨OrderType.SELL, OrderSubType.ALL_SELL, sell_price, sell_qty⟩]
  else if current_t > cfg.division - 1 then
    let qty_cut := if quantity > 0 then pyRound0 (quantity / 4) else 0
    Except.ok [⟨OrderType.SELL, OrderSubType.QTR_SELL, 0, qty_cut⟩]
  else Except.ok []

end InfBuyStrategy

namespace VRStrategy

/-- Configuration read in `VRStrategy.__init__` from the strategy params.
The rate and band parameters are already divided by 100 there. `math.sqrt`
has no rational counterpart, so the value of `math.sqrt(self.g_factor)` is
carried alongside `g_factor` as `sqrt_g_factor`; no claim depends on its
numeric value. -/
structure VRConfig where
  initial_investment : ℚ
  periodic_investment : ℚ
  buy_limit_rate : ℚ
  sell_limit_rate : ℚ
  g_factor : ℚ
  sqrt_g_factor : ℚ
  u_band : ℚ
  l_band : ℚ
  is_advanced : Bool
deriving DecidableEq, Repr

/-- One side of the `cycle_trade` summary (`qty` / `value`). -/
structure TradeSum where
  qty : ℚ
  value : ℚ
deriving DecidableEq, Repr

/-- The `cycle_trade` summary written into the previous snapshot's progress
by `_snapshot_trade_results`. -/
structure CycleTrade where
  buy : TradeSum
  sell : TradeSum
deriving DecidableEq, Repr

/-- The Value-Rebalancing snapshot `progress` dict: the keys written by
`_create_initial_snapshot` and `_calculate_next_state`, plus the
`cycle_trade` summary (absent until `_snapshot_trade_results` writes it)
and the `error_msg` slot the daily routine writes. -/
structure VRProgress where
  total_investment : ℚ
  v : ℚ
  qty : ℚ
  pool : ℚ
  avg_price : ℚ
  equity : ℚ
  cycle_profit : ℚ
  cycle_trade : Option CycleTrade := none
  error_msg : Option (List String) := none
deriving DecidableEq, Repr

/-- Initial progress state built by `VRStrategy._create_initial_snapshot`
(`vr_strategy.py` lines 128-136). -/
def initialProgress (cfg : VRConfig) : VRProgress :=
  { total_investment := cfg.initial_investment
    v := cfg.initial_investment
    qty := 0
    pool := cfg.initial_investment
    avg_price := 0
    equity := cfg.initial_investment
    cycle_profit := 0 }

/-- The fill-aggregation loop of `_snapshot_trade_results`
(`vr_strategy.py` lines 152-165). -/
def tradeSums (orders : List FilledOrder) : CycleTrade :=
  orders.foldl
    (fun acc o =>
      if o.order_status = OrderStatus.FILLED ∨ o.order_status = OrderStatus.PARTIALLY_FILLED then
        if o.order_type = OrderType.BUY then
          { acc with buy := ⟨acc.buy.qty + o.filled_qty, acc.buy.value + o.filled_price * o.filled_qty⟩ }
        else
          { acc with sell := ⟨acc.sell.qty + o.filled_qty, acc.sell.value + o.filled_price * o.filled_qty⟩ }
      else acc)
    ⟨⟨0, 0⟩, ⟨0, 0⟩⟩

/-- The side effect of `_snapshot_trade_results` (`vr_strategy.py` line 166):
the aggregated fills are written into the snapshot's progress under
`cycle_trade` (and committed). -/
def writeCycleTrade (p : VRProgress) (orders : List FilledOrder) : VRProgress :=
  { p with cycle_trade := some (tradeSums orders) }

/-- `VRStrategy._calculate_next_state` (`vr_strategy.py` lines 171-223) as a
pure function of the previous snapshot's progress (deep-copied by the source
before the `cycle_trade` side effect), its child orders, and the current
price. The `ValueError` raised when `last_state.get('v')` is falsy is the
error case (a float is falsy exactly when it is 0). The returned state is
built from an empty dict, so it carries no `cycle_trade` and no `error_msg`. -/
def calculateNextState (cfg : VRConfig) (p : VRProgress)
    (orders : List FilledOrder) (current_price : ℚ) : Except String VRProgress :=
  let last_pool := p.pool
  let trade := tradeSums orders
  let buy_sum := trade.buy
  let sell_sum := trade.sell
  let last_avg := p.avg_price
  let last_qty := p.qty
  let cycle_profit := sell_sum.value - sell_sum.qty * last_avg
  let temp_qty := last_qty - sell_sum.qty
  let temp_amount := temp_qty * last_avg
  let temp_qty := temp_qty + buy_sum.qty
  let temp_amount := temp_amount + buy_sum.value
  let new_avg := if temp_qty = 0 then 0 else temp_amount / temp_qty
  let new_qty := temp_qty
  let temp_pool := last_pool - buy_sum.value + sell_sum.value
  if p.v = 0 then Except.error "V is not defined in state."
  else
    let r_inc := 1 + last_pool / p.v / cfg.g_factor
    let r_inc :=
      if cfg.is_advanced then
        r_inc + (new_qty * current_price / p.v - 1) / (2 * cfg.sqrt_g_factor)
      else r_inc
    let new_v := p.v * r_inc + cfg.periodic_investment
    let new_pool := temp_pool + cfg.periodic_investment
    let equity := new_qty * current_price + new_pool
    Except.ok
      { total_investment := p.total_investment + cfg.periodic_investment
        v := new_v
        qty := new_qty
        pool := new_pool
        avg_price := new_avg
        equity := equity
        cycle_profit := cycle_profit }

/-- A generated Value-Rebalancing order dict (`side`, `price`, `qty`,
`order_type` is always `"LOC"`). -/
structure VROrder where
  side : OrderType
  price : ℚ
  qty : ℚ
deriving DecidableEq, Repr, Inhabited

/-- The buy-ladder `while` loop of `_generate_orders` (`vr_strategy.py`
lines 260-266): while the running sum of ladder prices is at most
`buy_limit`, emit a 1-unit LOC buy at the current target price, advance the
rung counter, recompute the target and add it to the running sum. The
recomputation inside the loop divides by `current_qty + buy_qty` without the
positivity guard of the initial computation (Python would raise on zero).
Fueled; `none` means the loop has not exited within `fuel` iterations. -/
def buyLoop (current_price l_band_value buy_limit current_qty : ℚ) :
    ℕ → ℕ → ℚ → ℚ → List VROrder → Option (List VROrder)
  | 0, _, _, _, _ => none
  | fuel + 1, buy_qty, target_price, daily_buy_sum, acc =>
    if daily_buy_sum ≤ buy_limit then
      let acc' := acc ++ [⟨OrderType.BUY, target_price, 1⟩]
      let buy_qty' := buy_qty + 1
      let tp' := min (current_price * (12/10)) (pyRound2 (l_band_value / (current_qty + (buy_qty' : ℚ))))
      buyLoop current_price l_band_value buy_limit current_qty fuel buy_qty' tp' (daily_buy_sum + tp') acc'
    else some acc

/-- The sell-ladder `while` loop of `_generate_orders` (`vr_strategy.py`
lines 274-275): `while sell_qty <= sell_limit: sell_orders.append(...)`.
The loop body appends one 1-unit LOC sell at the (never recomputed) target
price and changes nothing else: in particular `sell_qty` is never
incremented inside the loop. Fueled; `none` means the loop has not exited
within `fuel` iterations. -/
def sellLoop (sell_limit : ℚ) (o : VROrder) :
    ℕ → ℕ → List VROrder → Option (List VROrder)
  | 0, _, _ => none
  | fuel + 1, sell_qty, acc =>
    if (sell_qty : ℚ) ≤ sell_limit then
      sellLoop sell_limit o fuel sell_qty (acc ++ [o])
    else some acc

/-- Chunking of a list into consecutive runs of `u` elements, the effect of
the source's `for i in range(0, len(orders), unit): chunk = orders[i:i+unit]`
(`vr_strategy.py` lines 281-282, 289-290). The source only runs it with
`unit ≥ 1` (a `range` step of 0 would raise). -/
def chunksOf (u : ℕ) : List VROrder → List (List VROrder)
  | [] => []
  | a :: as => (a :: as.take (u - 1)) :: chunksOf u (as.drop (u - 1))
termination_by l => l.length
decreasing_by
  simp only [List.length_drop, List.length_cons]
  omega

/-- The per-side merge step of `_generate_orders` (`vr_strategy.py` lines
278-293): when more than `max_daily` orders were generated on a side, they
are merged into chunks of `ceil(len / max_daily)` consecutive orders, each
merged order taking the first chunk element's price and the summed quantity. -/
def mergeOrders (max_daily : ℕ) (side : OrderType) (orders : List VROrder) : List VROrder :=
  if orders.length > max_daily then
    let merge_orders_unit := (orders.length + max_daily - 1) / max_daily
    (chunksOf merge_orders_unit orders).map
      (fun chunk => ⟨side, chunk.headI.price, (chunk.map (·.qty)).sum⟩)
  else orders

/-- `VRStrategy._generate_orders` (`vr_strategy.py` lines 225-298): band
computation, buy ladder, sell ladder, per-side merge. Both ladders share the
fuel parameter; the result is `none` exactly when one of the two `while`
loops fails to exit within `fuel` iterations. -/
def generateOrders (cfg : VRConfig) (state : VRProgress) (current_price : ℚ)
    (fuel : ℕ) : Option (List VROrder) :=
  let trade := state.cycle_trade.getD ⟨⟨0, 0⟩, ⟨0, 0⟩⟩
  let cycle_pool := state.pool
  let cycle_buy_qty := trade.buy.qty
  let cycle_sell_qty := trade.sell.qty
  let current_qty := state.qty + cycle_buy_qty - cycle_sell_qty
  let v := state.v
  let u_band_value := (1 + cfg.u_band) * v
  let l_band_value := (1 - cfg.l_band) * v
  let buy_limit := cfg.buy_limit_rate * cycle_pool
  let sell_limit := cfg.sell_limit_rate * current_qty
  let max_daily_orders := 5
  let temp_target_price :=
    if current_qty + 1 > 0 then pyRound2 (l_band_value / (current_qty + 1)) else 0
  let target_price := min (current_price * (12/10)) temp_target_price
  match buyLoop current_price l_band_value buy_limit current_qty fuel 1 target_price target_price [] with
  | none => none
  | some buy_orders =>
    let sell_target := if current_qty - 1 > 0 then pyRound2 (u_band_value / (current_qty - 1)) else 0
    match sellLoop sell_limit ⟨OrderType.SELL, sell_target, 1⟩ fuel 1 [] with
    | none => none
    | some sell_orders =>
      let buy_orders := mergeOrders max_daily_orders OrderType.BUY buy_orders
      let sell_orders := mergeOrders max_daily_orders OrderType.SELL sell_orders
      some (buy_orders ++ sell_orders)

end VRStrategy

namespace BaseStrategy

/-- A child `Order` row as the reconciler sees it (`order_id`, status, fill
data). -/
structure ChildOrder where
  order_id : String
  order_status : OrderStatus
  filled_qty : ℚ
  filled_price : ℚ
deriving DecidableEq, Repr

/-- A normalized transaction-history record as parsed by
`parse_history_response`: the fields `_sync_snapshot_orders` reads
(`status` may be absent, in which case the order keeps its status). -/
structure HistoryRec where
  order_id : String
  status : Option OrderStatus
  filled_qty : ℚ
  filled_amt : ℚ
deriving DecidableEq, Repr

/-- Lookup in the `history_map` built from the broker's history list
(`base.py` line 83): later records with the same id win, as in a Python
dict comprehension. -/
def historyLookup (history : List HistoryRec) (oid : String) : Option HistoryRec :=
  history.foldl (fun acc h => if h.order_id = oid then some h else acc) none

/-- The per-order update of `_sync_snapshot_orders` (`base.py` lines 85-92):
an order found in the history map takes the reported status (keeping its own
when the record has none), the reported filled quantity, and filled price =
filled amount / filled quantity (0 when the filled quantity is falsy);
an order not found is left unchanged. -/
def syncOrder (history : List HistoryRec) (o : ChildOrder) : ChildOrder :=
  match historyLookup history o.order_id with
  | some info =>
    { o with
        order_status := info.status.getD o.order_status
        filled_qty := info.filled_qty
        filled_price := if info.filled_qty ≠ 0 then info.filled_amt / info.filled_qty else 0 }
  | none => o

/-- `BaseStrategy._sync_snapshot_orders` (`base.py` lines 58-102): returns
the updated orders together with the function's return value. With no child
orders the source hits the early `return` (line 62) and returns Python
`None`, modelled as `none`; otherwise it returns
`all(order.order_status != SUBMITTED for order in orders)`, modelled as
`some b`. -/
def syncSnapshotOrders (orders : List ChildOrder) (history : List HistoryRec) :
    List ChildOrder × Option Bool :=
  if orders.isEmpty then (orders, none)
  else
    let updated := orders.map (syncOrder history)
    (updated, some (updated.all (fun o => o.order_status ≠ OrderStatus.SUBMITTED)))

/-- The broker's response to one order submission as the placement loop in
`_place_orders` distinguishes it (`base.py` lines 136-168): no parsed
response, a market-closed rejection, an acceptance, an ordinary rejection,
or an exception raised while placing that order. -/
inductive PlaceResp where
  | noResp
  | holiday (msg : String)
  | accepted (order_id : String)
  | rejected (code msg : String)
  | exn (msg : String)
deriving DecidableEq, Repr

/-- The `result` dict returned by `_place_orders` (`base.py` lines 105-111). -/
structure PlaceResult where
  success : Bool
  submitted_orders : ℕ
  accepted_orders : ℕ
  is_holiday : Bool
  error_msg : Option (List String)
deriving DecidableEq, Repr

/-- A generated order as the placement loop consumes it: only the quantity
matters for control flow (`qty <= 0` is skipped without a broker call). -/
structure SubmitOrder where
  qty : ℚ
deriving DecidableEq, Repr

/-- The order-placement `for` loop of `_place_orders` (`base.py` lines
130-170): skip non-positive quantities, record errors for missing responses,
rejections and per-order exceptions, count acceptances, and `break` on the
first market-closed response. Returns (accepted count, is_holiday flag,
error list). Each attempted (non-skipped) order consumes one broker
response; a missing response behaves as `noResp`. -/
def placeLoop : List SubmitOrder → List PlaceResp → ℕ → Bool → List String →
    ℕ × Bool × List String
  | [], _, acc, hol, errs => (acc, hol, errs)
  | o :: os, resps, acc, hol, errs =>
    if o.qty ≤ 0 then placeLoop os resps acc hol errs
    else
      match resps with
      | [] => placeLoop os [] acc hol (errs ++ ["No response from broker"])
      | r :: rest =>
        match r with
        | PlaceResp.noResp => placeLoop os rest acc hol (errs ++ ["No response from broker"])
        | PlaceResp.holiday _ => (acc, true, errs)
        | PlaceResp.accepted _ => placeLoop os rest (acc + 1) hol errs
        | PlaceResp.rejected code msg => placeLoop os rest acc hol (errs ++ [code ++ ": " ++ msg])
        | PlaceResp.exn msg => placeLoop os rest acc hol (errs ++ ["Order exception: " ++ msg])

/-- `BaseStrategy._place_orders` (`base.py` lines 104-186) given the already
generated orders and the broker's responses: an empty generation returns
success with zero submitted and zero accepted orders (lines 121-125);
otherwise success holds exactly when at least one order was accepted
(lines 171-172), and `error_msg` is `None` exactly when every submitted
order was accepted (lines 174-177). -/
def placeOrders (orders : List SubmitOrder) (resps : List PlaceResp) : PlaceResult :=
  if orders.isEmpty then
    { success := true, submitted_orders := 0, accepted_orders := 0
      is_holiday := false, error_msg := none }
  else
    let r := placeLoop orders resps 0 false []
    { success := r.1 > 0
      submitted_orders := orders.length
      accepted_orders := r.1
      is_holiday := r.2.1
      error_msg := if r.1 = orders.length then none else some r.2.2 }

end BaseStrategy

/-- How the daily routines react to the `_place_orders` result: Step 3 of
`InfBuyStrategy.execute_daily_routine` (`inf_buy_strategy.py` lines 125-142)
applied to a snapshot. On success the snapshot becomes IN_PROGRESS with an
execution timestamp; otherwise the timestamp is cleared and the snapshot
either stays as it is (market closed) or becomes FAILED with the error
recorded in its progress. -/
def InfBuyStrategy.afterPlace (s : SnapshotStatus) (_executed_at : Option ℕ)
    (p : InfBuyStrategy.InfProgress) (r : BaseStrategy.PlaceResult) (now : ℕ) :
    SnapshotStatus × Option ℕ × InfBuyStrategy.InfProgress :=
  if r.success then (SnapshotStatus.IN_PROGRESS, some now, p)
  else if r.is_holiday then (s, none, p)
  else (SnapshotStatus.FAILED, none,
    { p with error_msg := some (r.error_msg.getD ["Unknown error during order placement"]) })

/-- The placement reaction of `VRStrategy.execute_daily_routine`
(`vr_strategy.py` lines 104-122): on success the snapshot becomes
IN_PROGRESS with an execution timestamp; a market-closed result leaves the
status unchanged; any other failure sets FAILED. In every case the routine
writes the result's `error_msg` into the progress (line 120; the Python
`dict.get` default never applies because the key is always present). -/
def VRStrategy.afterPlace (s : SnapshotStatus) (executed_at : Option ℕ)
    (p : VRStrategy.VRProgress) (r : BaseStrategy.PlaceResult) (now : ℕ) :
    SnapshotStatus × Option ℕ × VRStrategy.VRProgress :=
  let res :=
    if r.success then (SnapshotStatus.IN_PROGRESS, some now)
    else if r.is_holiday then (s, executed_at)
    else (SnapshotStatus.FAILED, executed_at)
  (res.1, res.2, { p with error_msg := r.error_msg })

namespace InfBuyStrategy

/-- A persisted Averaging `StrategySnapshot` row: status, cycle number,
progress, execution timestamp. -/
structure InfSnap where
  status : SnapshotStatus
  cycle : ℕ
  progress : InfProgress
  executed_at : Option ℕ := none
deriving DecidableEq, Repr

/-- The initial snapshot created by `_create_initial_snapshot`
(`inf_buy_strategy.py` lines 179-202): status COMPLETED, cycle 0. -/
def initialSnap (cfg : InfConfig) : InfSnap :=
  { status := SnapshotStatus.COMPLETED, cycle := 0, progress := initialProgress cfg }

/-- Everything one Averaging tick consumes from the outside world: whether
the price lookup or the order sync raises, whether the sync reports all
child orders finalized, the `_place_orders` result, and the clock. -/
structure InfEnv where
  priceFail : Bool
  syncFail : Bool
  allFinalized : Bool
  placeResult : BaseStrategy.PlaceResult
  now : ℕ
deriving Repr

/-- The status steps of `InfBuyStrategy.execute_daily_routine`
(`inf_buy_strategy.py` lines 95-143) applied to the most recent snapshot.
A FAILED snapshot stops the tick. Step 1 syncs an IN_PROGRESS
snapshot and marks it COMPLETED when all child orders are finalized (a
raised sync exception aborts the tick with the snapshot unchanged). Step 2,
on a COMPLETED snapshot, executes
`new_state = self._calculate_next_state(last_snapshot)` — the source passes
one argument to the two-parameter method `_calculate_next_state(self,
last_snapshot, current_price)`, so Python raises `TypeError` before any new
snapshot is built: the tick ends with the store as committed so far, and
`calculateNextState` is never reached. Step 3 places orders for a PENDING
snapshot and reacts through `afterPlace`. -/
def tickHead (env : InfEnv) (head : InfSnap) : InfSnap :=
  if head.status = SnapshotStatus.FAILED then head
  else if head.status = SnapshotStatus.IN_PROGRESS ∧ env.syncFail then head
  else
    let head1 :=
      if head.status = SnapshotStatus.IN_PROGRESS ∧ env.allFinalized then
        { head with status := SnapshotStatus.COMPLETED }
      else head
    if head1.status = SnapshotStatus.COMPLETED then head1
    else if head1.status = SnapshotStatus.PENDING then
      let r := afterPlace head1.status head1.executed_at head1.progress env.placeResult env.now
      { head1 with status := r.1, executed_at := r.2.1, progress := r.2.2 }
    else head1

/-- One tick of `InfBuyStrategy.execute_daily_routine` on the strategy's
snapshot store (most recent snapshot first): a failed price lookup raises
before any state change; with no snapshot an initial COMPLETED snapshot is
created and committed; otherwise only the most recent snapshot is touched
(`tickHead`). The Averaging tick never appends a snapshot, because Step 2
always raises (see `tickHead`). -/
def tick (cfg : InfConfig) (env : InfEnv) (store : List InfSnap) : List InfSnap :=
  if env.priceFail then store
  else
    match store with
    | [] => [tickHead env (initialSnap cfg)]
    | head :: tail => tickHead env head :: tail

end InfBuyStrategy

namespace VRStrategy

/-- A persisted Value-Rebalancing `StrategySnapshot` row. -/
structure VRSnap where
  status : SnapshotStatus
  cycle : ℕ
  progress : VRProgress
  executed_at : Option ℕ := none
deriving DecidableEq, Repr

/-- The initial snapshot created by `VRStrategy._create_initial_snapshot`
(`vr_strategy.py` lines 127-147): status PENDING, cycle 1. -/
def initialSnap (cfg : VRConfig) : VRSnap :=
  { status := SnapshotStatus.PENDING, cycle := 1, progress := initialProgress cfg }

/-- Everything one Value-Rebalancing tick consumes from the outside world:
price/sync failures, the sync verdict, the number of calendar days since
the snapshot's creation, the snapshot's child orders as reconciled, the
current price, the `_place_orders` result, and the clock. -/
structure VREnv where
  priceFail : Bool
  syncFail : Bool
  allFinalized : Bool
  daysPassed : ℕ
  orders : List FilledOrder
  currentPrice : ℚ
  placeResult : BaseStrategy.PlaceResult
  now : ℕ
deriving Repr

/-- The order-placement block of the VR routine (`vr_strategy.py` lines
104-122), applied only to a PENDING or IN_PROGRESS snapshot. -/
def placeIfOpen (env : VREnv) (s : VRSnap) : VRSnap :=
  if s.status = SnapshotStatus.PENDING ∨ s.status = SnapshotStatus.IN_PROGRESS then
    let r := afterPlace s.status s.executed_at s.progress env.placeResult env.now
    { s with status := r.1, executed_at := r.2.1, progress := r.2.2 }
  else s

/-- One tick of `VRStrategy.execute_daily_routine` (`vr_strategy.py` lines
38-124) on the strategy's snapshot store (most recent snapshot first).
A failed price lookup raises before any state change. With no snapshot an
initial PENDING snapshot is created and committed (and `days_passed` is 0
for it). A FAILED snapshot stops the tick; a raised sync exception aborts
it with snapshot statuses unchanged. When at least 14 days have passed and
the sync reported all child orders finalized, the current snapshot is marked
COMPLETED, `_snapshot_trade_results` writes the `cycle_trade` summary into
its progress (committed inside `_calculate_next_state`), and a new PENDING
snapshot with cycle + 1 and the calculator's state is created — unless the
calculator raises (`V` undefined), which aborts the tick after the COMPLETED
mark was committed. Finally the placement block runs on the open snapshot. -/
def tickCore (cfg : VRConfig) (env : VREnv) (fresh : Bool) (head : VRSnap)
    (tail : List VRSnap) : List VRSnap :=
  if head.status = SnapshotStatus.FAILED then head :: tail
  else if env.syncFail then head :: tail
  else
    let days := if fresh then 0 else env.daysPassed
    if 14 ≤ days ∧ env.allFinalized then
      let headC :=
        { head with
            status := SnapshotStatus.COMPLETED
            progress := writeCycleTrade head.progress env.orders }
      match calculateNextState cfg head.progress env.orders env.currentPrice with
      | Except.error _ => headC :: tail
      | Except.ok newp =>
        let newSnap : VRSnap := { status := SnapshotStatus.PENDING, cycle := head.cycle + 1, progress := newp }
        placeIfOpen env newSnap :: headC :: tail
    else placeIfOpen env head :: tail

/-- Entry of the VR tick: a failed price lookup raises before any state
change; with no snapshot, an initial PENDING snapshot is created and
committed and the routine continues on it with `days_passed = 0`. -/
def tick (cfg : VRConfig) (env : VREnv) (store : List VRSnap) : List VRSnap :=
  if env.priceFail then store
  else
    match store with
    | [] => tickCore cfg env true (initialSnap cfg) []
    | head :: tail => tickCore cfg env false head tail

end VRStrategy

/-- A snapshot status is non-terminal when it is PENDING or IN_PROGRESS:
such a snapshot is the strategy's "open cycle". -/
def isOpen (s : SnapshotStatus) : Bool :=
  s = SnapshotStatus.PENDING ∨ s = SnapshotStatus.IN_PROGRESS

/-- Number of non-terminal snapshots in a list of statuses. -/
def openCount (l : List SnapshotStatus) : ℕ := (l.filter isOpen).length

/-- Concrete Averaging configuration of the spec's cold-start example:
`division = 20`, `sell_gain = 20 %`, `initial_investment = 10000`
(so `unit_investment = 500`), `reinvestment_rate = 50 %`. -/
def cfg8 : InfBuyStrategy.InfConfig :=
  { division := 20, sell_gain := 1/5, initial_investment := 10000, reinvestment_rate := 1/2 }

/-- The initial Averaging progress for `cfg8`: `T = 0`, `investment = 10000`. -/
def st8 : InfBuyStrategy.InfProgress := InfBuyStrategy.initialProgress cfg8

/-- A concrete COMPLETED Averaging snapshot (cycle 3). -/
def snapC1 : InfBuyStrategy.InfSnap :=
  { status := SnapshotStatus.COMPLETED, cycle := 3, progress := st8 }

/-- Concrete Value-Rebalancing configuration with a 100 % daily sell cap
(`sell_limit_rate` param 100) and a 1 % buy cap. -/
def cfg2 : VRStrategy.VRConfig :=
  { initial_investment := 10000, periodic_investment := 400
    buy_limit_rate := 1/100, sell_limit_rate := 1
    g_factor := 13, sqrt_g_factor := 36/10
    u_band := 15/100, l_band := 15/100, is_advanced := false }

/-- Concrete Value-Rebalancing progress holding 2 shares with an exhausted
cash pool: `sell_limit = sell_limit_rate * qty = 2 ≥ 1`, `buy_limit = 0`. -/
def st2 : VRStrategy.VRProgress :=
  { total_investment := 10000, v := 100, qty := 2, pool := 0
    avg_price := 50, equity := 20, cycle_profit := 0 }

/-- Twelve generated 1-unit buy orders at distinct prices, the spec's
order-merge example input. -/
def twelveBuys : List VRStrategy.VROrder :=
  [⟨OrderType.BUY, 1, 1⟩, ⟨OrderType.BUY, 2, 1⟩, ⟨OrderType.BUY, 3, 1⟩,
   ⟨OrderType.BUY, 4, 1⟩, ⟨OrderType.BUY, 5, 1⟩, ⟨OrderType.BUY, 6, 1⟩,
   ⟨OrderType.BUY, 7, 1⟩, ⟨OrderType.BUY, 8, 1⟩, ⟨OrderType.BUY, 9, 1⟩,
   ⟨OrderType.BUY, 10, 1⟩, ⟨OrderType.BUY, 11, 1⟩, ⟨OrderType.BUY, 12, 1⟩]

/-- C8: for the Averaging cold start with `division = 20`,
`current_price = 100`, `unit_investment = 500`, the T = 0 ladder is exactly
one BUY at price 120.00 with quantity 4 = trunc(500 / 120), followed by
1-unit drop orders at `round(500 / qty, 2)` for `qty = 5, 6, 7`
(prices 100.00, 83.33, 71.43), strictly decreasing; every drop price before
the last exceeds 80.00 = 0.80 × 100 and the ladder ends with the first
price at or below it. -/
theorem c8_cold_start_ladder :
    InfBuyStrategy.generateOrders cfg8 st8 100 10 =
      Except.ok
        [⟨OrderType.BUY, InfBuyStrategy.OrderSubType.INIT, 120, 4⟩,
         ⟨OrderType.BUY, InfBuyStrategy.OrderSubType.INIT_DROP, 100, 1⟩,
         ⟨OrderType.BUY, InfBuyStrategy.OrderSubType.INIT_DROP, 8333/100, 1⟩,
         ⟨OrderType.BUY, InfBuyStrategy.OrderSubType.INIT_DROP, 7143/100, 1⟩]
  ∧ (4 : ℤ) = pyInt (500 / 120)
  ∧ (100 : ℚ) = pyRound2 (500 / 5)
  ∧ (8333/100 : ℚ) = pyRound2 (500 / 6)
  ∧ (7143/100 : ℚ) = pyRound2 (500 / 7)
  ∧ ((120 : ℚ) > 100 ∧ (100 : ℚ) > 8333/100 ∧ (8333/100 : ℚ) > 7143/100)
  ∧ ((100 : ℚ) > 80 ∧ (8333/100 : ℚ) > 80 ∧ (7143/100 : ℚ) ≤ 80) := by
  refine ⟨?_, by norm_num [pyInt], by norm_num [pyRound2, roundHalfEven],
    by norm_num [pyRound2, roundHalfEven], by norm_num [pyRound2, roundHalfEven],
    by norm_num, by norm_num⟩
  norm_num [InfBuyStrategy.generateOrders, InfBuyStrategy.dropLoop, cfg8, st8,
    InfBuyStrategy.initialProgress, pyRound2, roundHalfEven, pyInt]

/-- C9: in the Averaging next-state computation, when the reconciled
quantity `new_qty = old_qty - sold + bought` is at most 0.0001 the resulting
progress has `T = 0`, `star = sell_gain`, `quantity = 0`, `avg_price = 0`
and `cycle = old_cycle + 1`; when it exceeds 0.0001 the cycle number is
unchanged. -/
theorem c9_cycle_reset (cfg : InfBuyStrategy.InfConfig) (cyc : ℕ)
    (p : InfBuyStrategy.InfProgress) (orders : List FilledOrder) (price : ℚ) :
    (InfBuyStrategy.newQty p orders ≤ 1/10000 →
      (InfBuyStrategy.calculateNextState cfg cyc p orders price).current_t = 0
      ∧ (InfBuyStrategy.calculateNextState cfg cyc p orders price).star = cfg.sell_gain
      ∧ (InfBuyStrategy.calculateNextState cfg cyc p orders price).quantity = 0
      ∧ (InfBuyStrategy.calculateNextState cfg cyc p orders price).avg_price = 0
      ∧ (InfBuyStrategy.calculateNextState cfg cyc p orders price).cycle = cyc + 1)
  ∧ (1/10000 < InfBuyStrategy.newQty p orders →
      (InfBuyStrategy.calculateNextState cfg cyc p orders price).cycle = cyc) := by
  unfold InfBuyStrategy.calculateNextState InfBuyStrategy.newQty
  constructor
  · intro h
    rw [if_pos h]
    simp
  · intro h
    rw [if_neg (not_le.mpr h)]

/-- Witness for C9: an all-sold snapshot (empty fill list on a flat initial
state) has reconciled quantity 0 ≤ 0.0001 and its next state increments the
cycle from 3 to 4 with `T`, quantity and average price reset. -/
theorem c9_witness :
    InfBuyStrategy.newQty st8 [] ≤ 1/10000
  ∧ (InfBuyStrategy.calculateNextState cfg8 3 st8 [] 100).quantity = 0
  ∧ (InfBuyStrategy.calculateNextState cfg8 3 st8 [] 100).cycle = 3 + 1 := by
  have h : InfBuyStrategy.newQty st8 [] ≤ 1/10000 := by
    norm_num [InfBuyStrategy.newQty, InfBuyStrategy.orderSums, st8, cfg8,
      InfBuyStrategy.initialProgress]
  have hc := (c9_cycle_reset cfg8 3 st8 [] 100).1 h
  exact ⟨h, hc.2.2.1, hc.2.2.2.2⟩

/-- C4: recomputing the next-cycle state from the same previous progress,
the same filled orders and the same price yields identical results for both
variants. The Value-Rebalancing calculator's side effect on the previous
snapshot — writing the `cycle_trade` summary via `_snapshot_trade_results` —
does not change its output (the calculator never reads `cycle_trade`), and
the side effect itself is idempotent; the Averaging calculator works on a
copy of the progress dict and has no side effect at all
(`progressAfterCalc p = p`). -/
theorem c4_recompute_idempotent :
    (∀ (cfg : VRStrategy.VRConfig) (p : VRStrategy.VRProgress)
        (orders : List FilledOrder) (price : ℚ),
      VRStrategy.calculateNextState cfg (VRStrategy.writeCycleTrade p orders) orders price
        = VRStrategy.calculateNextState cfg p orders price
      ∧ VRStrategy.writeCycleTrade (VRStrategy.writeCycleTrade p orders) orders
        = VRStrategy.writeCycleTrade p orders)
  ∧ (∀ (cfg : InfBuyStrategy.InfConfig) (cyc : ℕ) (p : InfBuyStrategy.InfProgress)
        (orders : List FilledOrder) (price : ℚ),
      InfBuyStrategy.calculateNextState cfg cyc (InfBuyStrategy.progressAfterCalc p) orders price
        = InfBuyStrategy.calculateNextState cfg cyc p orders price) :=
  ⟨fun _ _ _ _ => ⟨rfl, rfl⟩, fun _ _ _ _ _ => rfl⟩

/-- C7 counterexample: for a snapshot with no child orders the reconciler
hits the early `return` and yields Python `None`, not `True` — even though
"no child order remains SUBMITTED" holds vacuously there. -/
theorem c7_counterexample :
    (BaseStrategy.syncSnapshotOrders [] []).2 = none
  ∧ (BaseStrategy.syncSnapshotOrders [] []).2 ≠ some true :=
  ⟨rfl, by simp [BaseStrategy.syncSnapshotOrders]⟩

/-- C7 (amended): for a snapshot with at least one child order the
reconciler returns `True` exactly when, after the reconciliation update, no
child order remains in status SUBMITTED; for a snapshot with no child
orders it returns `None`. -/
theorem c7_sync_return (orders : List BaseStrategy.ChildOrder)
    (history : List BaseStrategy.HistoryRec) :
    (orders ≠ [] →
      ((BaseStrategy.syncSnapshotOrders orders history).2 = some true ↔
        ∀ o ∈ (BaseStrategy.syncSnapshotOrders orders history).1,
          o.order_status ≠ OrderStatus.SUBMITTED))
  ∧ (orders = [] → (BaseStrategy.syncSnapshotOrders orders history).2 = none) := by
  constructor
  · intro h
    simp [BaseStrategy.syncSnapshotOrders, h, List.all_eq_true]
  · intro h
    subst h
    rfl

/-- Witness for C7: a lone still-SUBMITTED order not present in the broker
history gives the amended equivalence at a concrete input. -/
theorem c7_witness :
    (([⟨"a", OrderStatus.SUBMITTED, 0, 0⟩] : List BaseStrategy.ChildOrder) ≠ [])
  ∧ ((BaseStrategy.syncSnapshotOrders [⟨"a", OrderStatus.SUBMITTED, 0, 0⟩] []).2 = some true ↔
      ∀ o ∈ (BaseStrategy.syncSnapshotOrders [⟨"a", OrderStatus.SUBMITTED, 0, 0⟩] []).1,
        o.order_status ≠ OrderStatus.SUBMITTED) :=
  ⟨by simp, (c7_sync_return _ _).1 (by simp)⟩

/-- C10: when the generator produces no orders, `_place_orders` returns
success with zero submitted and zero accepted orders, no holiday flag and
no error, and the daily routines of both variants therefore mark the
PENDING snapshot IN_PROGRESS and stamp the execution timestamp although
nothing was sent to the broker. -/
theorem c10_empty_generation (resps : List BaseStrategy.PlaceResp)
    (s : SnapshotStatus) (e : Option ℕ) (pI : InfBuyStrategy.InfProgress)
    (pV : VRStrategy.VRProgress) (now : ℕ) (_hs : s = SnapshotStatus.PENDING) :
    BaseStrategy.placeOrders [] resps =
      { success := true, submitted_orders := 0, accepted_orders := 0
        is_holiday := false, error_msg := none }
  ∧ (InfBuyStrategy.afterPlace s e pI (BaseStrategy.placeOrders [] resps) now).1
      = SnapshotStatus.IN_PROGRESS
  ∧ (InfBuyStrategy.afterPlace s e pI (BaseStrategy.placeOrders [] resps) now).2.1 = some now
  ∧ (VRStrategy.afterPlace s e pV (BaseStrategy.placeOrders [] resps) now).1
      = SnapshotStatus.IN_PROGRESS
  ∧ (VRStrategy.afterPlace s e pV (BaseStrategy.placeOrders [] resps) now).2.1 = some now := by
  refine ⟨rfl, ?_, ?_, ?_, ?_⟩ <;>
    simp [BaseStrategy.placeOrders, InfBuyStrategy.afterPlace, VRStrategy.afterPlace]

/-- Witness for C10 on a concrete PENDING snapshot. -/
theorem c10_witness :
    (BaseStrategy.placeOrders [] []).accepted_orders = 0
  ∧ (InfBuyStrategy.afterPlace SnapshotStatus.PENDING none st8
      (BaseStrategy.placeOrders [] []) 7).1 = SnapshotStatus.IN_PROGRESS :=
  ⟨rfl, (c10_empty_generation [] SnapshotStatus.PENDING none st8 st2 7 rfl).2.1⟩

/-- C6 counterexample: a placement round whose generated order list is empty
has zero accepted orders and no market-closed rejection, yet the daily
routine sets the snapshot IN_PROGRESS instead of FAILED. -/
theorem c6_counterexample :
    (BaseStrategy.placeOrders [] []).accepted_orders = 0
  ∧ (BaseStrategy.placeOrders [] []).is_holiday = false
  ∧ (InfBuyStrategy.afterPlace SnapshotStatus.PENDING none st8
      (BaseStrategy.placeOrders [] []) 0).1 = SnapshotStatus.IN_PROGRESS
  ∧ (InfBuyStrategy.afterPlace SnapshotStatus.PENDING none st8
      (BaseStrategy.placeOrders [] []) 0).1 ≠ SnapshotStatus.FAILED := by
  refine ⟨rfl, rfl, ?_, ?_⟩ <;>
    simp [BaseStrategy.placeOrders, InfBuyStrategy.afterPlace]

/-- C6 (amended): for every placement round that submits at least one
generated order, on a PENDING (or, for Value-Rebalancing, IN_PROGRESS)
snapshot: at least one acceptance sets the status to IN_PROGRESS with an
execution timestamp; zero acceptances with a market-closed rejection leave
the status unchanged; zero acceptances otherwise set the status to FAILED
and record the error. -/
theorem c6_placement_status (orders : List BaseStrategy.SubmitOrder)
    (resps : List BaseStrategy.PlaceResp) (s : SnapshotStatus) (e : Option ℕ)
    (pI : InfBuyStrategy.InfProgress) (pV : VRStrategy.VRProgress) (now : ℕ)
    (h : orders ≠ []) :
    (0 < (BaseStrategy.placeOrders orders resps).accepted_orders →
      (InfBuyStrategy.afterPlace s e pI (BaseStrategy.placeOrders orders resps) now).1
          = SnapshotStatus.IN_PROGRESS
      ∧ (InfBuyStrategy.afterPlace s e pI (BaseStrategy.placeOrders orders resps) now).2.1
          = some now
      ∧ (VRStrategy.afterPlace s e pV (BaseStrategy.placeOrders orders resps) now).1
          = SnapshotStatus.IN_PROGRESS
      ∧ (VRStrategy.afterPlace s e pV (BaseStrategy.placeOrders orders resps) now).2.1
          = some now)
  ∧ ((BaseStrategy.placeOrders orders resps).accepted_orders = 0
      ∧ (BaseStrategy.placeOrders orders resps).is_holiday = true →
      (InfBuyStrategy.afterPlace s e pI (BaseStrategy.placeOrders orders resps) now).1 = s
      ∧ (VRStrategy.afterPlace s e pV (BaseStrategy.placeOrders orders resps) now).1 = s)
  ∧ ((BaseStrategy.placeOrders orders resps).accepted_orders = 0
      ∧ (BaseStrategy.placeOrders orders resps).is_holiday = false →
      (InfBuyStrategy.afterPlace s e pI (BaseStrategy.placeOrders orders resps) now).1
          = SnapshotStatus.FAILED
      ∧ (InfBuyStrategy.afterPlace s e pI
          (BaseStrategy.placeOrders orders resps) now).2.2.error_msg.isSome = true
      ∧ (VRStrategy.afterPlace s e pV (BaseStrategy.placeOrders orders resps) now).1
          = SnapshotStatus.FAILED
      ∧ (VRStrategy.afterPlace s e pV (BaseStrategy.placeOrders orders resps) now).2.2.error_msg
          = (BaseStrategy.placeOrders orders resps).error_msg
      ∧ (BaseStrategy.placeOrders orders resps).error_msg.isSome = true) := by
  have hne : orders.isEmpty = false := by
    cases orders with
    | nil => exact absurd rfl h
    | cons a as => rfl
  have hlen : orders.length ≠ 0 := by
    cases orders with
    | nil => exact absurd rfl h
    | cons a as => simp
  simp only [BaseStrategy.placeOrders, InfBuyStrategy.afterPlace, VRStrategy.afterPlace,
    hne, Bool.false_eq_true, if_false]
  refine ⟨fun h1 => ?_, fun h2 => ?_, fun h3 => ?_⟩
  · simp_all
  · obtain ⟨ha, hh⟩ := h2
    simp_all
  · obtain ⟨ha, hh⟩ := h3
    have hlen2 : ¬(0 = orders.length) := fun hq => hlen hq.symm
    simp_all

/-- Witness for C6: one 1-unit order accepted by the broker turns the
snapshot IN_PROGRESS with a timestamp. -/
theorem c6_witness :
    (([⟨1⟩] : List BaseStrategy.SubmitOrder) ≠ [])
  ∧ (InfBuyStrategy.afterPlace SnapshotStatus.PENDING none st8
      (BaseStrategy.placeOrders [⟨1⟩] [BaseStrategy.PlaceResp.accepted "42"]) 9).1
      = SnapshotStatus.IN_PROGRESS := by
  have h0 : (0:ℕ) < (BaseStrategy.placeOrders [⟨1⟩]
      [BaseStrategy.PlaceResp.accepted "42"]).accepted_orders := by
    norm_num [BaseStrategy.placeOrders, BaseStrategy.placeLoop]
  exact ⟨by simp,
    ((c6_placement_status [⟨1⟩] [BaseStrategy.PlaceResp.accepted "42"]
      SnapshotStatus.PENDING none st8 st2 9 (by simp)).1 h0).1⟩

/-- Summing a per-chunk function over `chunksOf` recovers the sum over the
whole list: the chunks partition the input. -/
theorem chunksOf_map_sum (f : VRStrategy.VROrder → ℚ) (u : ℕ) :
    ∀ (n : ℕ) (l : List VRStrategy.VROrder), l.length ≤ n →
      ((VRStrategy.chunksOf u l).map (fun c => (c.map f).sum)).sum = (l.map f).sum := by
  intro n
  induction n with
  | zero =>
    intro l hl
    have hnil : l = [] := List.length_eq_zero.mp (Nat.le_zero.mp hl)
    subst hnil
    simp [VRStrategy.chunksOf]
  | succ n ih =>
    intro l hl
    cases l with
    | nil => simp [VRStrategy.chunksOf]
    | cons a as =>
      rw [VRStrategy.chunksOf]
      simp only [List.map_cons, List.sum_cons]
      rw [ih (as.drop (u - 1)) (by simp only [List.length_drop]; simp only [List.length_cons] at hl; omega)]
      have hsplit := List.sum_take_add_sum_drop (as.map f) (u - 1)
      simp only [List.map_take, List.map_drop] at *
      linarith [hsplit]

/-- The number of chunks of size `u ≥ 1` covering a list of length at most
`u * k` is at most `k`. -/
theorem chunksOf_length_le (u : ℕ) (hu : 1 ≤ u) :
    ∀ (k : ℕ) (l : List VRStrategy.VROrder), l.length ≤ u * k →
      (VRStrategy.chunksOf u l).length ≤ k := by
  intro k
  induction k with
  | zero =>
    intro l hl
    rw [Nat.mul_zero] at hl
    have hnil : l = [] := List.length_eq_zero.mp (Nat.le_zero.mp hl)
    subst hnil
    simp [VRStrategy.chunksOf]
  | succ k ih =>
    intro l hl
    cases l with
    | nil => simp [VRStrategy.chunksOf]
    | cons a as =>
      rw [VRStrategy.chunksOf]
      simp only [List.length_cons]
      have hrec : (VRStrategy.chunksOf u (as.drop (u - 1))).length ≤ k := by
        apply ih
        simp only [List.length_drop]
        rw [Nat.mul_succ] at hl
        simp only [List.length_cons] at hl
        generalize u * k = m at hl ⊢
        omega
      omega

/-- C3 counterexample: merging twelve 1-unit buy orders with
`max_daily_orders = 5` yields chunks of size `ceil(12 / 5) = 3`, hence
4 merged orders — not the 5 the claim states. -/
theorem c3_counterexample :
    (VRStrategy.mergeOrders 5 OrderType.BUY twelveBuys).length ≠ 5 := by
  norm_num [VRStrategy.mergeOrders, VRStrategy.chunksOf, twelveBuys]

/-- C3 (amended): when the per-side order count exceeds
`max_daily_orders = 5`, the merge returns at most 5 orders whose summed
quantity equals the summed quantity of the input (each merged bucket keeps
its first order's price); for 12 generated buy orders the merged result has
exactly `ceil(12 / ceil(12/5)) = 4` orders. -/
theorem c3_merge_preserves_quantity (orders : List VRStrategy.VROrder)
    (side : OrderType) (h : 5 < orders.length) :
    ((VRStrategy.mergeOrders 5 side orders).map (·.qty)).sum = (orders.map (·.qty)).sum
  ∧ (VRStrategy.mergeOrders 5 side orders).length ≤ 5 := by
  unfold VRStrategy.mergeOrders
  rw [if_pos h]
  constructor
  · rw [List.map_map]
    exact chunksOf_map_sum _ _ orders.length orders le_rfl
  · rw [List.length_map]
    apply chunksOf_length_le _ (by omega) 5
    omega

/-- Witness for C3 on the spec's 12-order example: the merged result keeps
the total quantity 12 and has exactly 4 orders. -/
theorem c3_witness :
    5 < twelveBuys.length
  ∧ ((VRStrategy.mergeOrders 5 OrderType.BUY twelveBuys).map (·.qty)).sum
      = (twelveBuys.map (·.qty)).sum
  ∧ (VRStrategy.mergeOrders 5 OrderType.BUY twelveBuys).length = 4 := by
  refine ⟨by norm_num [twelveBuys], (c3_merge_preserves_quantity twelveBuys OrderType.BUY (by norm_num [twelveBuys])).1, ?_⟩
  norm_num [VRStrategy.mergeOrders, VRStrategy.chunksOf, twelveBuys]

/-- The Value-Rebalancing sell ladder never exits once entered: the loop
body only appends an order and never changes `sell_qty` (nor the limit), so
whenever the guard `sell_qty ≤ sell_limit` holds at entry it holds forever —
no amount of fuel reaches the exit. -/
theorem sellLoop_diverges (sell_limit : ℚ) (o : VRStrategy.VROrder) (sq : ℕ)
    (h : (sq : ℚ) ≤ sell_limit) :
    ∀ (fuel : ℕ) (acc : List VRStrategy.VROrder),
      VRStrategy.sellLoop sell_limit o fuel sq acc = none := by
  intro fuel
  induction fuel with
  | zero => intro acc; rfl
  | succ n ih =>
    intro acc
    rw [VRStrategy.sellLoop, if_pos h]
    exact ih _

/-- C2: the Value-Rebalancing order generator does not terminate on every
input. On a concrete state holding 2 shares with `sell_limit_rate = 100 %`
(so `sell_limit = 2 ≥ 1`) and an empty cash pool (the buy ladder exits at
once), the sell ladder loops forever — `_generate_orders` never returns,
whatever fuel it is given. -/
theorem c2_sell_ladder_diverges :
    ∀ fuel : ℕ, VRStrategy.generateOrders cfg2 st2 10 fuel = none := by
  intro fuel
  cases fuel with
  | zero => rfl
  | succ n =>
    rw [VRStrategy.generateOrders]
    norm_num [cfg2, st2, pyRound2, roundHalfEven, min_def]
    have hb : VRStrategy.buyLoop 10 85 0 2 (n+1) 1 12 12 [] = some [] := by
      rw [VRStrategy.buyLoop]
      norm_num
    have hs : VRStrategy.sellLoop 2 ⟨OrderType.SELL, 115, 1⟩ (n+1) 1 [] = none :=
      sellLoop_diverges 2 _ 1 (by norm_num) (n+1) []
    rw [hb, hs]

/-- C1: on a tick whose most recent Averaging snapshot is COMPLETED the
engine does not create any new snapshot — the store is unchanged for every
environment. The source's Step 2 calls
`self._calculate_next_state(last_snapshot)` with one argument while the
method takes two (`last_snapshot, current_price`), so Python raises
`TypeError` before the Cycle State Calculator runs or a PENDING snapshot
with cycle + 1 is built. -/
theorem c1_completed_tick_no_new_snapshot :
    ∀ env : InfBuyStrategy.InfEnv,
      InfBuyStrategy.tick cfg8 env [snapC1] = [snapC1]
    ∧ ∀ s ∈ InfBuyStrategy.tick cfg8 env [snapC1],
        ¬(s.status = SnapshotStatus.PENDING ∧ s.cycle = snapC1.cycle + 1) := by
  intro env
  have ht : InfBuyStrategy.tick cfg8 env [snapC1] = [snapC1] := by
    by_cases hp : env.priceFail
    · simp [InfBuyStrategy.tick, hp]
    · simp [InfBuyStrategy.tick, hp, InfBuyStrategy.tickHead, snapC1]
  refine ⟨ht, ?_⟩
  rw [ht]
  intro s hs
  simp only [List.mem_singleton] at hs
  subst hs
  simp [snapC1]

/-- A snapshot list whose tail holds only terminal snapshots has at most one
non-terminal snapshot. -/
theorem openCount_le_one_of_tail {α : Type} (f : α → SnapshotStatus) (l : List α)
    (h : ∀ s ∈ l.tail, isOpen (f s) = false) : openCount (l.map f) ≤ 1 := by
  cases l with
  | nil => simp [openCount]
  | cons a t =>
    have ht : (t.map f).filter isOpen = [] := by
      rw [List.filter_eq_nil_iff]
      intro b hb
      obtain ⟨s, hs, rfl⟩ := List.mem_map.mp hb
      simp [h s hs]
    unfold openCount
    rw [List.map_cons, List.filter_cons]
    split <;> simp [ht]

/-- An Averaging tick never touches anything but the most recent snapshot:
the tail of the store is unchanged (Step 2's `TypeError` means no snapshot
is ever appended). -/
theorem inf_tick_tail (cfg : InfBuyStrategy.InfConfig) (env : InfBuyStrategy.InfEnv)
    (store : List InfBuyStrategy.InfSnap) :
    (InfBuyStrategy.tick cfg env store).tail = store.tail := by
  unfold InfBuyStrategy.tick
  by_cases hp : env.priceFail
  · simp [hp]
  · cases store <;> simp [hp]

/-- Shape of one Value-Rebalancing tick on a nonempty store: either only the
head snapshot is replaced, or a new head is prepended and the old head —
now marked COMPLETED, hence terminal — moves to second position. -/
theorem vr_tickCore_shape (cfg : VRStrategy.VRConfig) (env : VRStrategy.VREnv)
    (fresh : Bool) (head : VRStrategy.VRSnap) (tail : List VRStrategy.VRSnap) :
    (∃ x, VRStrategy.tickCore cfg env fresh head tail = x :: tail)
  ∨ (∃ x y, VRStrategy.tickCore cfg env fresh head tail = x :: y :: tail
      ∧ isOpen y.status = false) := by
  unfold VRStrategy.tickCore
  dsimp only
  split_ifs <;>
    first
    | (left; exact ⟨_, rfl⟩)
    | (cases hcalc : VRStrategy.calculateNextState cfg head.progress env.orders env.currentPrice <;>
        simp only [hcalc] <;>
        first
        | (left; exact ⟨_, rfl⟩)
        | (right; exact ⟨_, _, rfl, rfl⟩))

/-- A Value-Rebalancing tick keeps every snapshot behind the most recent one
terminal. -/
theorem vr_tickCore_closed (cfg : VRStrategy.VRConfig) (env : VRStrategy.VREnv)
    (fresh : Bool) (head : VRStrategy.VRSnap) (tail : List VRStrategy.VRSnap)
    (h : ∀ s ∈ tail, isOpen s.status = false) :
    ∀ s ∈ (VRStrategy.tickCore cfg env fresh head tail).tail, isOpen s.status = false := by
  rcases vr_tickCore_shape cfg env fresh head tail with ⟨x, hx⟩ | ⟨x, y, hx, hy⟩
  · rw [hx]
    simpa using h
  · rw [hx]
    intro s hs
    rcases List.mem_cons.mp hs with hs | hs
    · subst hs
      exact hy
    · exact h s hs

/-- A Value-Rebalancing tick preserves terminality of the store's tail. -/
theorem vr_tick_closed (cfg : VRStrategy.VRConfig) (env : VRStrategy.VREnv)
    (store : List VRStrategy.VRSnap)
    (h : ∀ s ∈ store.tail, isOpen s.status = false) :
    ∀ s ∈ (VRStrategy.tick cfg env store).tail, isOpen s.status = false := by
  unfold VRStrategy.tick
  by_cases hp : env.priceFail
  · simpa [hp] using h
  · cases store with
    | nil =>
      simp only [hp, Bool.false_eq_true, if_false]
      exact vr_tickCore_closed cfg env true (VRStrategy.initialSnap cfg) [] (by simp)
    | cons a t =>
      simp only [hp, Bool.false_eq_true, if_false]
      exact vr_tickCore_closed cfg env false a t (by simpa using h)

/-- Terminality of the tail is preserved along any sequence of Averaging
ticks. -/
theorem inf_fold_closed (cfg : InfBuyStrategy.InfConfig) (envs : List InfBuyStrategy.InfEnv) :
    ∀ store, (∀ s ∈ store.tail, isOpen s.status = false) →
      ∀ s ∈ (envs.foldl (fun st e => InfBuyStrategy.tick cfg e st) store).tail,
        isOpen s.status = false := by
  induction envs with
  | nil => intro store h; simpa using h
  | cons e es ih =>
    intro store h
    simp only [List.foldl_cons]
    apply ih
    rw [inf_tick_tail]
    exact h

/-- Terminality of the tail is preserved along any sequence of
Value-Rebalancing ticks. -/
theorem vr_fold_closed (cfg : VRStrategy.VRConfig) (envs : List VRStrategy.VREnv) :
    ∀ store, (∀ s ∈ store.tail, isOpen s.status = false) →
      ∀ s ∈ (envs.foldl (fun st e => VRStrategy.tick cfg e st) store).tail,
        isOpen s.status = false := by
  induction envs with
  | nil => intro store h; simpa using h
  | cons e es ih =>
    intro store h
    simp only [List.foldl_cons]
    exact ih _ (vr_tick_closed cfg e store h)

/-- C5: starting from no snapshots, any sequence of daily-routine ticks of
either variant leaves at most one snapshot in a non-terminal status
(PENDING or IN_PROGRESS): only the most recent snapshot can be open, every
older one is COMPLETED or FAILED. -/
theorem c5_at_most_one_open :
    ∀ (cfgI : InfBuyStrategy.InfConfig) (envsI : List InfBuyStrategy.InfEnv)
      (cfgV : VRStrategy.VRConfig) (envsV : List VRStrategy.VREnv),
      openCount ((envsI.foldl (fun st e => InfBuyStrategy.tick cfgI e st) []).map (·.status)) ≤ 1
    ∧ openCount ((envsV.foldl (fun st e => VRStrategy.tick cfgV e st) []).map (·.status)) ≤ 1 := by
  intro cfgI envsI cfgV envsV
  constructor
  · exact openCount_le_one_of_tail _ _ (inf_fold_closed cfgI envsI [] (by simp))
  · exact openCount_le_one_of_tail _ _ (vr_fold_closed cfgV envsV [] (by simp))

end Trading
